import Mathlib

/-!
Verification development for the cashback-claim bot (`src/bot.py`).

The Python source is shallowly embedded: the SQLite ticket store becomes a
`List Ticket` (list order = insertion order = `id` order), aiogram FSM session
state becomes an explicit `Session` value, and each aiogram handler becomes a
pure function from the store/session to new store/session plus a list of
abstract outbound effects (`Out`).  Telegram delivery failures are modeled by
explicit boolean parameters where a claim depends on them.  Timestamps and the
wall clock are outside the model: the current date string (`%Y%m%d`) is passed
explicitly as `today`, and `created_at` columns are carried as opaque strings.
-/

namespace Cashback

/-- Ticket status column: `new|needs_info|approved|rejected` (bot.py line 118). -/
inductive Status
  | new
  | needs_info
  | approved
  | rejected
deriving DecidableEq

/-- Row of the `attachments` table: `kind` is one of
`deposit_photo|deposit_doc|withdraw_photo|withdraw_doc`, `file_id` is the
opaque Telegram media token (bot.py lines 124-131). -/
structure Attachment where
  kind : String
  file_id : String
deriving DecidableEq

/-- Row of the `tickets` table (bot.py lines 110-123).  The `user_id` join to
`users.tg_id` is collapsed: tickets store the Telegram user id directly.  The
1:N `attachments` rows for a ticket are carried inline as `atts` (they are
written only at ticket creation, mirroring `create_ticket`). -/
structure Ticket where
  code : String
  user_id : Nat
  email : Option String
  project_nick : Option String
  casino_code : Option String
  status : Status
  atts : List Attachment
  created_at : String
deriving DecidableEq

/-- Row of the `messages` table (bot.py lines 132-140); the ticket foreign key
is carried as the ticket code. -/
structure MsgEntry where
  code : String
  sender : String
  text : Option String
  file_id : Option String
deriving DecidableEq

/-- An `id_field` entry of the casino configuration (bot.py lines 51-63).
`regex` mirrors the optional JSON field; its matching semantics (the default
pattern, which is also the one configured pattern) is given by `emailMatch`. -/
structure IdField where
  type : String
  label : String
  regex : Option String
deriving DecidableEq

/-- A casino entry of `DEFAULT_CASINOS_CONFIG` (bot.py lines 51-63). -/
structure Casino where
  code : String
  name : String
  id_field : IdField
  enabled : Bool
deriving DecidableEq

/-- The built-in default catalog (bot.py lines 51-63); `src/` contains no
`casinos.json`, so `load_casinos_config` yields exactly this value. -/
def DEFAULT_CASINOS : List Casino :=
  [ ⟨ "shuffle", "Shuffle", ⟨ "nick", "Ник в казино", none⟩, true⟩,
    ⟨ "vodka", "Vodka", ⟨ "nick", "Ник в казино", none⟩, true⟩,
    ⟨ "beef", "Beef", ⟨ "email", "Почта аккаунта", some "^[^@\\s]+@[^@\\s]+\\.[^@\\s]+$"⟩, true⟩ ]

/-- `CASINOS_BY_CODE` lookup (bot.py line 79), restricted to enabled entries. -/
def CASINOS_BY_CODE (code : String) : Option Casino :=
  (DEFAULT_CASINOS.filter (fun c => c.enabled)).find? (fun c => c.code == code)

/-- `casino_id_field` (bot.py lines 87-90): falls back to a nickname field. -/
def casino_id_field (code : Option String) : IdField :=
  match code with
  | none => ⟨ "nick", "Ник в казино", none⟩
  | some c =>
    match CASINOS_BY_CODE c with
    | some casino => casino.id_field
    | none => ⟨ "nick", "Ник в казино", none⟩

/-- `idf.get("label") or default` idiom used by the handlers (bot.py line 526):
an absent label is an empty string in this model. -/
def label_or_default (idf : IdField) : String :=
  if idf.label = "" then
    (if idf.type = "email" then "Почта аккаунта" else "Ник в казино")
  else idf.label

/-- Python `str.strip()` on a character list: whitespace removed from both
ends.  Python `\s`-whitespace is modeled by `Char.isWhitespace` (ASCII space,
tab, CR, LF), which covers every character the bot's inputs exercise. -/
def stripChars (l : List Char) : List Char :=
  ((l.dropWhile Char.isWhitespace).reverse.dropWhile Char.isWhitespace).reverse

/-- Python `str.strip()`. -/
def pyStrip (s : String) : String :=
  ⟨stripChars s.data⟩

/-- Python `str.lower()`, restricted to ASCII case mapping. -/
def pyLower (s : String) : String :=
  ⟨s.data.map Char.toLower⟩

/-- The done-synonym literal set `{"готово", "done", "ок", "ok"}`
(bot.py lines 577 and 635). -/
def DONE_WORDS : List String :=
  [ "готово", "done", "ок", "ok"]

/-- `m.text.strip().lower() in {...}` test of the two done-text handlers. -/
def isDoneText (t : String) : Bool :=
  DONE_WORDS.contains (pyLower (pyStrip t))

/-- Character class `[^@\s]` of the default email pattern. -/
def okEmailChar (c : Char) : Bool :=
  c ≠ '@' && !c.isWhitespace

/-- Semantics of `re.match(p, value, re.IGNORECASE)` for the pattern
`p = ^[^@\s]+@[^@\s]+\.[^@\s]+$` (the built-in default, and also the one
regex configured in the catalog): the string decomposes as `a@b.c` with `a`,
`b`, `c` nonempty strings over `[^@\s]` (so exactly one `@`, no whitespace,
and a dot after the `@` with material on both sides).  `IGNORECASE` has no
effect on this pattern. -/
def emailMatch (s : String) : Bool :=
  match s.data.splitOn '@' with
  | [a, d] =>
    a ≠ [] && a.all okEmailChar && d.all okEmailChar &&
      ((List.range d.length).any fun i =>
        decide (0 < i) && decide (i + 1 < d.length) && d.get? i == some '.')
  | _ => false

/-- Validation error text for a short nickname (bot.py line 406). -/
def nickShortMsg : String := "Ник слишком короткий. Напиши корректный ник."

/-- Validation error text for a malformed email (bot.py line 402). -/
def emailErrMsg : String := "Это не похоже на почту. Укажи e-mail в формате user@example.com"

/-- `validate_id_value` (bot.py lines 394-407): returns the error text when the
value is invalid, `none` when valid. -/
def validate_id_value (casino_code : String) (value : String) : Option String :=
  if (casino_id_field (some casino_code)).type = "email" then
    if emailMatch (pyStrip value) then none else some emailErrMsg
  else
    if (pyStrip value).length < 2 then some nickShortMsg else none

/-- Big-endian decimal digits, fuel-structured so the kernel can evaluate it;
`natDigitsAux n n` lists the digits of `n` without leading zeros. -/
def natDigitsAux : Nat → Nat → List Nat
  | _, 0 => []
  | 0, _ + 1 => []
  | fuel + 1, n + 1 => natDigitsAux fuel ((n + 1) / 10) ++ [(n + 1) % 10]

/-- Big-endian decimal digits of `n` (empty only for `n = 0`). -/
def natDigitsBE (n : Nat) : List Nat :=
  natDigitsAux n n

/-- Digits of Python `f"{n:04d}"`: decimal digits left-padded with zeros to
width at least 4. -/
def pad4digits (n : Nat) : List Nat :=
  List.replicate (4 - (if n = 0 then [0] else natDigitsBE n).length) 0
    ++ (if n = 0 then [0] else natDigitsBE n)

/-- Decimal digit rendered as a character. -/
def toDigitChar (d : Nat) : Char :=
  Char.ofNat (48 + d)

/-- Python `f"{n:04d}"`. -/
def pad4 (n : Nat) : String :=
  ⟨(pad4digits n).map toDigitChar⟩

/-- SQLite `substr(code, 5, 8)`: the 8 characters after the `TCK-` prefix. -/
def codeDay (code : String) : String :=
  ⟨(code.data.drop 4).take 8⟩

/-- `gen_ticket_code` (bot.py lines 169-173): count today's tickets (those
whose code carries today's date at `substr(code,5,8)`) and render
`TCK-{today}-{cnt+1:04d}`. -/
def gen_ticket_code (store : List Ticket) (today : String) : String :=
  let cnt := (store.filter fun t => codeDay t.code == today).length
  "TCK-" ++ today ++ "-" ++ pad4 (cnt + 1)

/-- The `data` dict handed to `create_ticket` (bot.py lines 175-183). -/
structure TicketPayload where
  casino_code : Option String
  id_type : String
  id_value : Option String
  attachments : List Attachment
deriving DecidableEq

/-- `create_ticket` (bot.py lines 175-209): generate a code, populate `email`
or `project_nick` according to `id_type`, insert the ticket with status `new`
together with its attachments, and return the code. -/
def create_ticket (today : String) (store : List Ticket) (user_tg_id : Nat)
    (data : TicketPayload) : List Ticket × String :=
  let code := gen_ticket_code store today
  let email_val := if data.id_type = "email" then data.id_value else none
  let nick_val := if data.id_type = "nick" then data.id_value else none
  (store ++ [⟨code, user_tg_id, email_val, nick_val, data.casino_code, Status.new,
    data.attachments, ""⟩], code)

/-- `find_ticket_by_code` (bot.py lines 211-217). -/
def find_ticket_by_code (store : List Ticket) (code : String) : Option Ticket :=
  store.find? fun t => t.code == code

/-- Status update applied to one row by `update_ticket_status`. -/
def updRow (code : String) (new_status : Status) (t : Ticket) : Ticket :=
  if t.code == code then { t with status := new_status } else t

/-- `update_ticket_status` (bot.py lines 233-239): `UPDATE tickets SET
status=? WHERE code=?` (`updated_at` is outside the model). -/
def update_ticket_status (store : List Ticket) (code : String) (new_status : Status) :
    List Ticket :=
  store.map (updRow code new_status)

/-- `add_message` (bot.py lines 247-253). -/
def add_message (msgs : List MsgEntry) (code : String) (sender : String)
    (text : Option String) (file_id : Option String) : List MsgEntry :=
  msgs ++ [⟨code, sender, text, file_id⟩]

/-- `MAX_ACTIVE_TICKETS` (bot.py line 257). -/
def MAX_ACTIVE_TICKETS : Nat := 3

/-- `ACTIVE_STATUSES` (bot.py line 258). -/
def ACTIVE_STATUSES : List Status := [Status.new, Status.needs_info]

/-- Predicate of the active-ticket queries: ticket belongs to the user and its
status is in `ACTIVE_STATUSES`. -/
def isActiveFor (tg_id : Nat) (t : Ticket) : Bool :=
  t.user_id == tg_id && ACTIVE_STATUSES.contains t.status

/-- `count_active_tickets` (bot.py lines 260-268). -/
def count_active_tickets (store : List Ticket) (tg_id : Nat) : Nat :=
  (store.filter (isActiveFor tg_id)).length

/-- `list_active_user_tickets` (bot.py lines 270-282): `(code, status,
created_at)` triples, newest first (`ORDER BY t.id DESC`). -/
def list_active_user_tickets (store : List Ticket) (tg_id : Nat) :
    List (String × Status × String) :=
  ((store.filter (isActiveFor tg_id)).reverse).map fun t => (t.code, t.status, t.created_at)

/-- The `CashbackForm` FSM states (bot.py lines 292-297); `idle` is the
cleared/no-state condition produced by `state.clear()`. -/
inductive FormState
  | idle
  | casino
  | project_nick
  | dep_attachments
  | wd_attachments
  | confirm
deriving DecidableEq

/-- The aiogram FSM data dict of one claimant conversation: keys
`casino_code`, `project_nick`, `dep_atts`, `wd_atts`.  A missing key is
`none` / the empty list (matching `data.get(key, default)`). -/
structure SessionData where
  casino_code : Option String := none
  project_nick : Option String := none
  dep_atts : List Attachment := []
  wd_atts : List Attachment := []
deriving DecidableEq

/-- FSM state plus data for one claimant conversation.  `state.clear()`
resets both to the defaults; `state.set_state(s)` changes only `state`. -/
structure Session where
  state : FormState := FormState.idle
  data : SessionData := {}
deriving DecidableEq

/-- The session produced by `state.clear()`. -/
def emptySession : Session := {}

/-- Abstract outbound effects of the claimant-side handlers: each constructor
stands for one `answer`/`send_message` call, carrying the data that call
interpolates. -/
inductive Out
  | mainMenu
  | askCasinoChoice
  | casinoUnavailable
  | askId (label : String)
  | needIdText (label : String)
  | idError (err : String)
  | askDeps
  | ackDep (n : Nat)
  | needDepOne
  | hintDepDone
  | askWd
  | ackWd (n : Nat)
  | needWdOne
  | hintWdDone
  | summary (casino : Option String) (ident : Option String) (depN wdN : Nat)
  | confirmHint
  | quotaBlocked (active : List (String × Status × String))
  | createdMsg (code : String)
  | adminNewTicket (code : String)
  | canceled
deriving DecidableEq

/-- `cb_new_ticket` (bot.py lines 484-502): the anti-spam check either blocks
with the active-ticket list (leaving the session untouched) or moves the FSM
to casino selection.  Note `set_state` does not clear the data dict. -/
def cb_new_ticket (store : List Ticket) (tg_id : Nat) (sess : Session) :
    Session × List Out :=
  if count_active_tickets store tg_id ≥ MAX_ACTIVE_TICKETS then
    (sess, [Out.quotaBlocked (list_active_user_tickets store tg_id)])
  else
    ({ sess with state := FormState.casino }, [Out.askCasinoChoice])

/-- `cmd_cashback` (bot.py lines 769-782): same gating as `cb_new_ticket`
(the `get_or_create_user` side effect touches only the `users` table, which
is outside the model). -/
def cmd_cashback (store : List Ticket) (tg_id : Nat) (sess : Session) :
    Session × List Out :=
  if count_active_tickets store tg_id ≥ MAX_ACTIVE_TICKETS then
    (sess, [Out.quotaBlocked (list_active_user_tickets store tg_id)])
  else
    ({ sess with state := FormState.casino }, [Out.askCasinoChoice])

/-- `casino_selected` (bot.py lines 516-528). -/
def casino_selected (sess : Session) (code : String) : Session × List Out :=
  match CASINOS_BY_CODE code with
  | none => (sess, [Out.casinoUnavailable])
  | some _ =>
    ({ state := FormState.project_nick,
       data := { sess.data with casino_code := some code } },
     [Out.askId (label_or_default (casino_id_field (some code)))])

/-- `form_id_input` (bot.py lines 530-558): strip the text, reject empty
input, run `validate_id_value`, and on success store the identifier and
advance to the deposit-collection state. -/
def form_id_input (sess : Session) (text : Option String) : Session × List Out :=
  match sess.data.casino_code with
  | none => ({ sess with state := FormState.casino }, [Out.askCasinoChoice])
  | some ccode =>
    let id_value := pyStrip (text.getD "")
    if id_value = "" then
      (sess, [Out.needIdText (label_or_default (casino_id_field (some ccode)))])
    else
      match validate_id_value ccode id_value with
      | some err => (sess, [Out.idError err])
      | none =>
        ({ state := FormState.dep_attachments,
           data := { sess.data with project_nick := some id_value } },
         [Out.askDeps])

/-- `dep_attach_media` (bot.py lines 561-573): append the attachment and
acknowledge with the running count. -/
def dep_attach_media (sess : Session) (att : Attachment) : Session × List Out :=
  let atts := sess.data.dep_atts ++ [att]
  ({ sess with data := { sess.data with dep_atts := atts } }, [Out.ackDep atts.length])

/-- `_go_to_withdraw_stage` (bot.py lines 606-616). -/
def go_to_withdraw_stage (sess : Session) : Session × List Out :=
  ({ sess with state := FormState.wd_attachments }, [Out.askWd])

/-- `dep_attach_done_text` (bot.py lines 575-584): a done-synonym text
advances to the withdrawal stage only when at least one deposit attachment
was collected; anything else re-prompts in place. -/
def dep_attach_done_text (sess : Session) (text : Option String) : Session × List Out :=
  match text with
  | some tx =>
    if isDoneText tx then
      if sess.data.dep_atts.length = 0 then (sess, [Out.needDepOne])
      else go_to_withdraw_stage sess
    else (sess, [Out.hintDepDone])
  | none => (sess, [Out.hintDepDone])

/-- `dep_done_btn` (bot.py lines 596-604). -/
def dep_done_btn (sess : Session) : Session × List Out :=
  if sess.data.dep_atts.length = 0 then (sess, [Out.needDepOne])
  else go_to_withdraw_stage sess

/-- `wd_attach_media` (bot.py lines 619-631). -/
def wd_attach_media (sess : Session) (att : Attachment) : Session × List Out :=
  let atts := sess.data.wd_atts ++ [att]
  ({ sess with data := { sess.data with wd_atts := atts } }, [Out.ackWd atts.length])

/-- `_show_summary_and_confirm` (bot.py lines 667-686): move to the confirm
state and present the summary. -/
def show_summary_and_confirm (sess : Session) : Session × List Out :=
  ({ sess with state := FormState.confirm },
   [Out.summary sess.data.casino_code sess.data.project_nick
      sess.data.dep_atts.length sess.data.wd_atts.length])

/-- `wd_attach_done_text` (bot.py lines 633-643): a done-synonym text
advances to the confirmation step only when at least one withdrawal
attachment was collected. -/
def wd_attach_done_text (sess : Session) (text : Option String) : Session × List Out :=
  match text with
  | some tx =>
    if isDoneText tx then
      if sess.data.wd_atts.length = 0 then (sess, [Out.needWdOne])
      else show_summary_and_confirm sess
    else (sess, [Out.hintWdDone])
  | none => (sess, [Out.hintWdDone])

/-- `wd_done_btn` (bot.py lines 651-659). -/
def wd_done_btn (sess : Session) : Session × List Out :=
  if sess.data.wd_atts.length = 0 then (sess, [Out.needWdOne])
  else show_summary_and_confirm sess

/-- `cancel_flow` (bot.py lines 661-665): `state.clear()`. -/
def cancel_flow (_sess : Session) : Session × List Out :=
  (emptySession, [Out.canceled, Out.mainMenu])

/-- `_finalize_submission` (bot.py lines 688-735): re-run the anti-spam
check; when the cap is reached, send the blocking active-ticket list and
clear the draft without writing anything; otherwise build the payload from
the session data, create the ticket, clear the draft, and notify the
claimant and the admins. -/
def finalize_submission (today : String) (store : List Ticket) (tg_id : Nat)
    (sess : Session) : List Ticket × Session × List Out :=
  if count_active_tickets store tg_id ≥ MAX_ACTIVE_TICKETS then
    (store, emptySession, [Out.quotaBlocked (list_active_user_tickets store tg_id)])
  else
    let data := sess.data
    let idf := casino_id_field data.casino_code
    let payload : TicketPayload :=
      ⟨data.casino_code, idf.type, data.project_nick, data.dep_atts ++ data.wd_atts⟩
    let res := create_ticket today store tg_id payload
    (res.1, emptySession, [Out.createdMsg res.2, Out.adminNewTicket res.2])

/-- `form_confirm` (bot.py lines 737-742): the literal confirmation text
(stripped, lowercased) triggers finalization; anything else re-prompts. -/
def form_confirm (today : String) (store : List Ticket) (tg_id : Nat)
    (sess : Session) (text : Option String) : List Ticket × Session × List Out :=
  if pyLower (pyStrip (text.getD "")) = "подтверждаю" then
    finalize_submission today store tg_id sess
  else
    (store, sess, [Out.confirmHint])

/-- `confirm_send` (bot.py lines 744-747): the send-now button. -/
def confirm_send (today : String) (store : List Ticket) (tg_id : Nat)
    (sess : Session) : List Ticket × Session × List Out :=
  finalize_submission today store tg_id sess

/-- Which one-shot admin sub-dialog is pending: `AdminReply.wait_text` or
`AdminReject.wait_reason` (bot.py lines 299-303), keyed by the ticket code
stashed in the admin's FSM data. -/
inductive PendKind
  | wait_text
  | wait_reason
deriving DecidableEq

/-- The admin decision buttons of `admin_actions` (bot.py lines 973-1025). -/
inductive AdminAction
  | approve
  | reject
  | needinfo
  | reply
  | files
deriving DecidableEq

/-- Combined result of a moderation handler: the ticket store, the message
log, and the admin's pending sub-dialog (ticket code plus kind). -/
structure ModResult where
  store : List Ticket
  msgs : List MsgEntry
  pending : Option (String × PendKind)
deriving DecidableEq

/-- `admin_actions` (bot.py lines 973-1025): resolve the code (no-op when not
found); `approve` sets the status unconditionally and logs; `reject` only
opens the `wait_reason` sub-dialog; `needinfo` sets `needs_info` immediately
and opens `wait_text`; `reply` opens `wait_text`; `files` re-sends
attachments without touching any state. -/
def admin_actions (store : List Ticket) (msgs : List MsgEntry)
    (pending : Option (String × PendKind)) (code : String) (a : AdminAction) :
    ModResult :=
  match find_ticket_by_code store code with
  | none => ⟨store, msgs, pending⟩
  | some _ =>
    match a with
    | AdminAction.approve =>
      ⟨update_ticket_status store code Status.approved,
       add_message msgs code "admin" (some "Заявка одобрена") none, pending⟩
    | AdminAction.reject => ⟨store, msgs, some (code, PendKind.wait_reason)⟩
    | AdminAction.needinfo =>
      ⟨update_ticket_status store code Status.needs_info, msgs,
       some (code, PendKind.wait_text)⟩
    | AdminAction.reply => ⟨store, msgs, some (code, PendKind.wait_text)⟩
    | AdminAction.files => ⟨store, msgs, pending⟩

/-- `admin_reject_with_reason` (bot.py lines 1058-1089): consume the pending
reason text (placeholder when blank), set the status to `rejected`, log, and
clear the sub-dialog.  The user notification may fail and is suppressed. -/
def admin_reject_with_reason (store : List Ticket) (msgs : List MsgEntry)
    (codeOpt : Option String) (text : Option String) : ModResult :=
  match codeOpt with
  | none => ⟨store, msgs, none⟩
  | some code =>
    match find_ticket_by_code store code with
    | none => ⟨store, msgs, none⟩
    | some _ =>
      let stripped := pyStrip (text.getD "")
      let reason := if stripped = "" then "Причина не указана" else stripped
      ⟨update_ticket_status store code Status.rejected,
       add_message msgs code "admin" (some ("Отклонено. Причина: " ++ reason)) none,
       none⟩

/-- What `admin_send_text` reports back to the operator. -/
inductive SendOut
  | stateError
  | notFound
  | sentOk
  | sendFailed
deriving DecidableEq

/-- Result of `admin_send_text`: the message log, the operator-facing
response, and whether the sub-dialog state was cleared. -/
structure SendResult where
  msgs : List MsgEntry
  out : SendOut
  cleared : Bool
deriving DecidableEq

/-- `admin_send_text` (bot.py lines 1027-1056): the reply/request-info text
consumer.  `sendOk` models whether `bot.send_message` to the claimant raises;
the `add_message` log append sits after the send inside the `try`, so it runs
only on a successful send, and the `finally` clears the sub-dialog state on
every path. -/
def admin_send_text (store : List Ticket) (msgs : List MsgEntry)
    (codeOpt : Option String) (sendOk : Bool) (text : Option String) : SendResult :=
  match codeOpt with
  | none => ⟨msgs, SendOut.stateError, true⟩
  | some code =>
    match find_ticket_by_code store code with
    | none => ⟨msgs, SendOut.notFound, true⟩
    | some _ =>
      if sendOk then
        ⟨add_message msgs code "admin" text none, SendOut.sentOk, true⟩
      else
        ⟨msgs, SendOut.sendFailed, true⟩

/-- The `SELECT ... WHERE u.tg_id=? AND t.status='needs_info' ORDER BY t.id
DESC LIMIT 1` query of `catch_user_messages` (bot.py lines 1098-1108): the
newest ticket of the user among those currently in `needs_info`. -/
def latest_needs_info (store : List Ticket) (tg_id : Nat) : Option Ticket :=
  (store.filter fun t => t.user_id == tg_id && t.status == Status.needs_info).getLast?

/-- The user's newest ticket overall (largest `id`), the entity the spec's
"most recent ticket" wording refers to. -/
def latest_ticket (store : List Ticket) (tg_id : Nat) : Option Ticket :=
  (store.filter fun t => t.user_id == tg_id).getLast?

/-- `catch_user_messages` (bot.py lines 1092-1147): admin messages are
ignored; otherwise the message is forwarded (and logged) exactly when the
query of `latest_needs_info` returns a row, and silently dropped (no log, no
forward) otherwise.  Returns the message log and whether the message was
forwarded to the operator channel. -/
def catch_user_messages (admins : List Nat) (store : List Ticket)
    (msgs : List MsgEntry) (tg_id : Nat) (text : Option String)
    (file_id : Option String) : List MsgEntry × Bool :=
  if admins.contains tg_id then (msgs, false)
  else
    match latest_needs_info store tg_id with
    | none => (msgs, false)
    | some t => (add_message msgs t.code "user" text file_id, true)

/-- One store-mutating operation of the modeled system: a gated claim
finalization (the `_finalize_submission` path, whose admission re-check is
part of the operation) or a completed moderation decision. -/
inductive Op
  | finalize (tg_id : Nat) (p : TicketPayload)
  | adminApprove (code : String)
  | adminRejectDone (code : String)
  | adminNeedInfo (code : String)
deriving DecidableEq

/-- Store effect of one operation, mirroring the corresponding handler:
`finalize` aborts when the active cap is reached (bot.py lines 688-698) and
otherwise inserts the new ticket; the moderation ops resolve the code first
(no-op when unknown) and then set the status as the handlers do. -/
def applyOp (today : String) (store : List Ticket) : Op → List Ticket
  | Op.finalize tg_id p =>
    if count_active_tickets store tg_id ≥ MAX_ACTIVE_TICKETS then store
    else (create_ticket today store tg_id p).1
  | Op.adminApprove code =>
    if (find_ticket_by_code store code).isSome then
      update_ticket_status store code Status.approved
    else store
  | Op.adminRejectDone code =>
    if (find_ticket_by_code store code).isSome then
      update_ticket_status store code Status.rejected
    else store
  | Op.adminNeedInfo code =>
    if (find_ticket_by_code store code).isSome then
      update_ticket_status store code Status.needs_info
    else store

/-- Run a sequence of operations. -/
def applyOps (today : String) (store : List Ticket) (ops : List Op) : List Ticket :=
  ops.foldl (applyOp today) store

/-- Checks that every `adminNeedInfo` in the sequence targets a ticket that is
still in the active set when the operation runs. -/
def okNeedinfo (today : String) : List Ticket → List Op → Bool
  | _, [] => true
  | store, op :: ops =>
    (match op with
     | Op.adminNeedInfo code =>
       (store.filter fun t => t.code == code).all fun t =>
         ACTIVE_STATUSES.contains t.status
     | _ => true)
    && okNeedinfo today (applyOp today store op) ops

/-- Sequential invocation of the code generator: each created ticket is
inserted before the next `gen_ticket_code` call (the loop body is exactly
`create_ticket`).  Returns the final store and the generated codes in
order. -/
def seqCreate (today : String) (tg_id : Nat) (p : TicketPayload) :
    List Ticket → Nat → List Ticket × List String
  | store, 0 => (store, [])
  | store, k + 1 =>
    let res := create_ticket today store tg_id p
    let rest := seqCreate today tg_id p res.1 k
    (rest.1, res.2 :: rest.2)

/-- Value of a big-endian digit list. -/
def digitsVal (ds : List Nat) : Nat :=
  ds.foldl (fun a d => a * 10 + d) 0

/-- Decimal value of a digit-character list. -/
def readNatChars (cs : List Char) : Nat :=
  cs.foldl (fun a c => a * 10 + (c.toNat - 48)) 0

/-- The numeric `NNNN` part of a ticket code: the digits after the 13
characters of `TCK-YYYYMMDD-`. -/
def seqNum (code : String) : Nat :=
  readNatChars (code.data.drop 13)

/-- Concrete nickname payload used by example instantiations. -/
def payNick : TicketPayload := ⟨some "shuffle", "nick", some "Player123", []⟩

/-- Concrete ticket in `needs_info`, an older ticket of user 1. -/
def c1Older : Ticket :=
  ⟨ "TCK-20250101-0001", 1, none, some "Player123", some "shuffle",
    Status.needs_info, [], ""⟩

/-- Concrete ticket in `new`, the newest ticket of user 1. -/
def c1Newest : Ticket :=
  ⟨ "TCK-20250101-0002", 1, none, some "Player123", some "shuffle",
    Status.new, [], ""⟩

/-- Concrete rejected ticket of user 1. -/
def tRejected : Ticket :=
  ⟨ "TCK-20250101-0001", 1, none, some "Player123", some "shuffle",
    Status.rejected, [], ""⟩

/-- Store holding three active (`new`) tickets of user 5. -/
def quotaStore : List Ticket :=
  [ ⟨ "TCK-20250101-0001", 5, none, some "a1", some "shuffle", Status.new, [], ""⟩,
    ⟨ "TCK-20250101-0002", 5, none, some "a2", some "shuffle", Status.new, [], ""⟩,
    ⟨ "TCK-20250101-0003", 5, none, some "a3", some "shuffle", Status.new, [], ""⟩ ]

/-- Session sitting at the identifier step for the email-kind casino. -/
def sessBeef : Session :=
  ⟨FormState.project_nick, ⟨some "beef", none, [], []⟩⟩

/-- Session carrying a leftover draft from an earlier unfinished wizard run. -/
def sessDraft : Session :=
  ⟨FormState.confirm,
   ⟨some "shuffle", some "OldNick",
    [⟨ "deposit_photo", "fileA"⟩], [⟨ "withdraw_photo", "fileB"⟩]⟩⟩

/-- The ticket produced by the first creation of the day for user 1 with
`payNick`. -/
def firstTicket : Ticket :=
  ⟨ "TCK-20250101-0001", 1, none, some "Player123", some "shuffle",
    Status.new, [], ""⟩

/-- Operation sequence in which every creation passes the admission check yet
a fourth active ticket appears: three creations, an approval freeing a slot,
a fourth creation, then `requestInfo` re-activating the approved ticket. -/
def c4Ops : List Op :=
  [ Op.finalize 7 payNick, Op.finalize 7 payNick, Op.finalize 7 payNick,
    Op.adminApprove "TCK-20250101-0001", Op.finalize 7 payNick,
    Op.adminNeedInfo "TCK-20250101-0001"]

section Lemmas

variable {α : Type _}

/-- The first element surviving `dropWhile` fails the predicate. -/
theorem dropWhile_head_false (p : α → Bool) :
    ∀ (l : List α) (c : α) (cs : List α), l.dropWhile p = c :: cs → p c = false := by
  intro l
  induction l with
  | nil => intro c cs h; simp [List.dropWhile] at h
  | cons a t ih =>
    intro c cs h
    by_cases ha : p a
    · rw [List.dropWhile_cons, if_pos ha] at h
      exact ih c cs h
    · rw [List.dropWhile_cons, if_neg ha] at h
      cases h
      exact Bool.of_not_eq_true ha

/-- `dropWhile` is idempotent. -/
theorem dropWhile_idem (p : α → Bool) (l : List α) :
    (l.dropWhile p).dropWhile p = l.dropWhile p := by
  cases h : l.dropWhile p with
  | nil => simp
  | cons c cs =>
    rw [List.dropWhile_cons, if_neg]
    simp [dropWhile_head_false p l c cs h]

/-- A trailing element failing the predicate survives `dropWhile`. -/
theorem dropWhile_append_singleton (p : α → Bool) (c : α) (hc : p c = false) :
    ∀ xs : List α, (xs ++ [c]).dropWhile p = xs.dropWhile p ++ [c] := by
  intro xs
  induction xs with
  | nil => simp [List.dropWhile, hc]
  | cons a t ih =>
    by_cases ha : p a
    · simp only [List.cons_append, List.dropWhile_cons, if_pos ha]
      exact ih
    · simp only [List.cons_append, List.dropWhile_cons, if_neg ha]

/-- Python `strip` is idempotent. -/
theorem stripChars_idem (l : List Char) : stripChars (stripChars l) = stripChars l := by
  unfold stripChars
  cases hA : l.dropWhile Char.isWhitespace with
  | nil => simp
  | cons c cs =>
    have hc : Char.isWhitespace c = false := dropWhile_head_false _ l c cs hA
    rw [List.reverse_cons, dropWhile_append_singleton _ c hc, List.reverse_append]
    simp only [List.reverse_cons, List.reverse_nil, List.nil_append, List.singleton_append]
    rw [List.dropWhile_cons, if_neg (by simp [hc])]
    rw [List.reverse_cons, dropWhile_append_singleton _ c hc, List.reverse_reverse,
      dropWhile_idem, List.reverse_append]
    simp

/-- Python `strip` is idempotent (string level). -/
theorem pyStrip_idem (s : String) : pyStrip (pyStrip s) = pyStrip s := by
  unfold pyStrip
  exact congrArg String.mk (stripChars_idem s.data)

/-- A string is empty exactly when its character list is. -/
theorem string_eq_empty_iff (s : String) : s = "" ↔ s.data = [] := by
  cases s with
  | mk l =>
    constructor
    · intro h
      exact congrArg String.data h
    · intro h
      have h' : l = [] := h
      subst h'
      rfl

end Lemmas

/-- C10: when the operator's reply or request-info text fails to deliver (the
send raises), no message-log entry is appended — the append runs only after a
successful send — the operator sees a failure message instead of the success
confirmation, and the pending sub-dialog state is cleared on both the success
and the failure path. -/
theorem C10_send_text_log_after_send (store : List Ticket) (msgs : List MsgEntry)
    (code : String) (t : Ticket) (text : Option String)
    (hf : find_ticket_by_code store code = some t) :
    admin_send_text store msgs (some code) false text
        = ⟨msgs, SendOut.sendFailed, true⟩
    ∧ admin_send_text store msgs (some code) true text
        = ⟨add_message msgs code "admin" text none, SendOut.sentOk, true⟩ := by
  constructor <;> simp [admin_send_text, hf]

/-- Witness for C10 at a concrete store, ticket and text. -/
theorem C10_send_text_witness :
    find_ticket_by_code [c1Newest] "TCK-20250101-0002" = some c1Newest
    ∧ admin_send_text [c1Newest] [] (some "TCK-20250101-0002") false (some "hi")
        = ⟨[], SendOut.sendFailed, true⟩ :=
  ⟨by decide,
   (C10_send_text_log_after_send [c1Newest] [] "TCK-20250101-0002" c1Newest
      (some "hi") (by decide)).1⟩

/-- C3: when the claimant confirms at the `Confirming` step (by the literal
confirmation text or the send-now button) while already holding
`MAX_ACTIVE_TICKETS` active tickets, finalization aborts: the store is
unchanged (no ticket persisted), the session is cleared (draft discarded),
and the claimant receives the list of blocking active tickets. -/
theorem C3_finalize_quota_aborts (today : String) (store : List Ticket)
    (tg_id : Nat) (sess : Session) (text : Option String)
    (hq : count_active_tickets store tg_id ≥ MAX_ACTIVE_TICKETS)
    (hc : pyLower (pyStrip (text.getD "")) = "подтверждаю") :
    form_confirm today store tg_id sess text
      = (store, emptySession, [Out.quotaBlocked (list_active_user_tickets store tg_id)])
    ∧ confirm_send today store tg_id sess
      = (store, emptySession, [Out.quotaBlocked (list_active_user_tickets store tg_id)]) := by
  constructor <;>
    simp [form_confirm, confirm_send, finalize_submission, hc, hq]

/-- Witness for C3: a user with three active tickets confirming a draft. -/
theorem C3_finalize_quota_witness :
    count_active_tickets quotaStore 5 ≥ MAX_ACTIVE_TICKETS
    ∧ form_confirm "20250101" quotaStore 5 sessDraft (some "подтверждаю")
        = (quotaStore, emptySession,
           [Out.quotaBlocked (list_active_user_tickets quotaStore 5)]) :=
  ⟨by decide,
   (C3_finalize_quota_aborts "20250101" quotaStore 5 sessDraft
      (some "подтверждаю") (by decide) (by decide)).1⟩

/-- C5: in the `CollectingWithdrawals` state, a done signal (the dedicated
button or a done-synonym text) advances the draft to `Confirming` exactly
when at least one withdrawal attachment has been collected; with zero
withdrawal attachments the transition is refused and the session is left
unchanged (re-prompt in place), whatever the session data accumulated by any
prior ordering of uploads and done signals. -/
theorem C5_wd_done_gating (sess : Session) (tx : String)
    (hd : isDoneText tx = true) :
    (sess.data.wd_atts = [] →
       wd_attach_done_text sess (some tx) = (sess, [Out.needWdOne])
       ∧ wd_done_btn sess = (sess, [Out.needWdOne]))
    ∧ (sess.data.wd_atts ≠ [] →
       wd_attach_done_text sess (some tx)
         = ({ sess with state := FormState.confirm },
            [Out.summary sess.data.casino_code sess.data.project_nick
               sess.data.dep_atts.length sess.data.wd_atts.length])
       ∧ wd_done_btn sess
         = ({ sess with state := FormState.confirm },
            [Out.summary sess.data.casino_code sess.data.project_nick
               sess.data.dep_atts.length sess.data.wd_atts.length])) := by
  constructor
  · intro h0
    constructor <;>
      simp [wd_attach_done_text, wd_done_btn, hd, h0, show_summary_and_confirm]
  · intro hne
    have hlen : sess.data.wd_atts.length ≠ 0 := by
      simpa [List.length_eq_zero] using hne
    constructor <;>
      simp [wd_attach_done_text, wd_done_btn, hd, hlen, show_summary_and_confirm]

/-- Witness for C5: the empty-withdrawals refusal at a concrete session. -/
theorem C5_wd_done_witness :
    isDoneText "done" = true
    ∧ wd_attach_done_text ⟨FormState.wd_attachments, {}⟩ (some "done")
        = (⟨FormState.wd_attachments, {}⟩, [Out.needWdOne]) :=
  ⟨by decide,
   ((C5_wd_done_gating ⟨FormState.wd_attachments, {}⟩ "done" (by decide)).1 rfl).1⟩

/-- C9: starting a new claim (the new-claim button or `/cashback`) only moves
the FSM to casino selection — `set_state` does not clear the data dict — so
deposit attachments, withdrawal attachments and the identifier left over from
a previous unfinished run stay in the session, and finalization builds the
ticket from exactly that session data (leftover attachments and identifier
included). -/
theorem C9_new_claim_preserves_draft (today : String) (store : List Ticket)
    (tg_id : Nat) (sess : Session) :
    (cb_new_ticket store tg_id sess).1.data = sess.data
    ∧ (cmd_cashback store tg_id sess).1.data = sess.data
    ∧ (count_active_tickets store tg_id < MAX_ACTIVE_TICKETS →
        cb_new_ticket store tg_id sess
          = ({ sess with state := FormState.casino }, [Out.askCasinoChoice])
        ∧ (finalize_submission today store tg_id sess).1
            = store ++
              [⟨gen_ticket_code store today, tg_id,
                (if (casino_id_field sess.data.casino_code).type = "email"
                   then sess.data.project_nick else none),
                (if (casino_id_field sess.data.casino_code).type = "nick"
                   then sess.data.project_nick else none),
                sess.data.casino_code, Status.new,
                sess.data.dep_atts ++ sess.data.wd_atts, ""⟩]) := by
  refine ⟨?_, ?_, ?_⟩
  · unfold cb_new_ticket
    split <;> rfl
  · unfold cmd_cashback
    split <;> rfl
  · intro h
    have hn : ¬ count_active_tickets store tg_id ≥ MAX_ACTIVE_TICKETS := by omega
    exact ⟨by simp [cb_new_ticket, hn],
           by simp [finalize_submission, create_ticket, hn]⟩

/-- Witness for C9: a leftover draft (old identifier plus one deposit and one
withdrawal attachment) survives the new-claim button and lands in the created
ticket. -/
theorem C9_new_claim_witness :
    count_active_tickets [] 1 < MAX_ACTIVE_TICKETS
    ∧ (cb_new_ticket [] 1 sessDraft).1.data = sessDraft.data
    ∧ (finalize_submission "20250101" [] 1 sessDraft).1
        = [⟨ "TCK-20250101-0001", 1, none, some "OldNick", some "shuffle",
            Status.new,
            [⟨ "deposit_photo", "fileA"⟩, ⟨ "withdraw_photo", "fileB"⟩], ""⟩] := by
  refine ⟨by decide, (C9_new_claim_preserves_draft "20250101" [] 1 sessDraft).1, ?_⟩
  have h := ((C9_new_claim_preserves_draft "20250101" [] 1 sessDraft).2.2 (by decide)).2
  rw [h]
  decide

/-- C6: at the identifier step, a nickname-kind casino rejects every value
whose stripped length is below 2, and an email-kind casino rejects every
value whose stripped form fails the configured (default) email pattern; a
rejection re-prompts with the explanatory reason and leaves the session
unchanged, while an accepted value is stored (stripped) and the state
advances to the deposit-collection step. -/
theorem C6_identifier_validation (sess : Session) (ccode v : String)
    (hc : sess.data.casino_code = some ccode) :
    ((casino_id_field (some ccode)).type = "nick" →
       ((pyStrip v).length < 2 →
          form_id_input sess (some v)
            = (sess, [if pyStrip v = ""
                        then Out.needIdText (label_or_default (casino_id_field (some ccode)))
                        else Out.idError nickShortMsg]))
       ∧ (2 ≤ (pyStrip v).length →
          form_id_input sess (some v)
            = (⟨FormState.dep_attachments,
                { sess.data with project_nick := some (pyStrip v) }⟩,
               [Out.askDeps])))
    ∧ ((casino_id_field (some ccode)).type = "email" →
       (emailMatch (pyStrip v) = false →
          form_id_input sess (some v)
            = (sess, [if pyStrip v = ""
                        then Out.needIdText (label_or_default (casino_id_field (some ccode)))
                        else Out.idError emailErrMsg]))
       ∧ (emailMatch (pyStrip v) = true →
          form_id_input sess (some v)
            = (⟨FormState.dep_attachments,
                { sess.data with project_nick := some (pyStrip v) }⟩,
               [Out.askDeps]))) := by
  constructor
  · intro hk
    constructor
    · intro hlen
      by_cases h0 : pyStrip v = ""
      · simp [form_id_input, hc, h0]
      · have hval : validate_id_value ccode (pyStrip v) = some nickShortMsg := by
          unfold validate_id_value
          rw [hk]
          rw [if_neg (by decide), if_pos (by rw [pyStrip_idem]; exact hlen)]
        simp [form_id_input, hc, h0, hval]
    · intro hlen
      have h0 : pyStrip v ≠ "" := by
        intro he
        rw [he] at hlen
        simp at hlen
      have hval : validate_id_value ccode (pyStrip v) = none := by
        simp only [validate_id_value]
        rw [hk]
        rw [if_neg (by decide), if_neg (by rw [pyStrip_idem]; omega)]
      simp [form_id_input, hc, h0, hval]
  · intro hk
    constructor
    · intro hm
      by_cases h0 : pyStrip v = ""
      · simp [form_id_input, hc, h0]
      · have hval : validate_id_value ccode (pyStrip v) = some emailErrMsg := by
          unfold validate_id_value
          rw [hk]
          rw [if_pos rfl]
          simp only [pyStrip_idem, hm]
          rfl
        simp [form_id_input, hc, h0, hval]
    · intro hm
      have h0 : pyStrip v ≠ "" := by
        intro he
        rw [he] at hm
        exact absurd hm (by decide)
      have hval : validate_id_value ccode (pyStrip v) = none := by
        simp only [validate_id_value]
        rw [hk]
        rw [if_pos rfl]
        simp only [pyStrip_idem, hm]
        rfl
      simp [form_id_input, hc, h0, hval]

/-- Witness for C6: the email-kind casino rejects "not-an-email" in place and
accepts "a@b.com", advancing to deposit collection. -/
theorem C6_identifier_witness :
    sessBeef.data.casino_code = some "beef"
    ∧ (casino_id_field (some "beef")).type = "email"
    ∧ emailMatch (pyStrip "not-an-email") = false
    ∧ form_id_input sessBeef (some "not-an-email")
        = (sessBeef, [Out.idError emailErrMsg])
    ∧ emailMatch (pyStrip "a@b.com") = true
    ∧ form_id_input sessBeef (some "a@b.com")
        = (⟨FormState.dep_attachments,
            { sessBeef.data with project_nick := some (pyStrip "a@b.com") }⟩,
           [Out.askDeps]) := by
  refine ⟨rfl, rfl, by decide, ?_, by decide, ?_⟩
  · have h := ((C6_identifier_validation sessBeef "beef" "not-an-email" rfl).2 rfl).1
      (by decide)
    rw [h]
    decide
  · exact ((C6_identifier_validation sessBeef "beef" "a@b.com" rfl).2 rfl).2 (by decide)

/-- The fallback-relay query returns a row exactly when the user has some
ticket currently in `needs_info` (not necessarily the newest ticket). -/
theorem latest_needs_info_isSome (store : List Ticket) (tg_id : Nat) :
    (latest_needs_info store tg_id).isSome = true
      ↔ ∃ t ∈ store, t.user_id = tg_id ∧ t.status = Status.needs_info := by
  unfold latest_needs_info
  rw [List.getLast?_isSome]
  constructor
  · intro h
    obtain ⟨t, ht⟩ := List.exists_mem_of_ne_nil _ h
    have hm := List.mem_filter.mp ht
    have hb := hm.2
    simp only [Bool.and_eq_true, beq_iff_eq] at hb
    exact ⟨t, hm.1, hb.1, hb.2⟩
  · rintro ⟨t, htm, h1, h2⟩
    exact List.ne_nil_of_mem (List.mem_filter.mpr ⟨htm, by simp [h1, h2]⟩)

/-- C1 as stated is false: user 1's most recent ticket is in `new`, yet the
relay forwards the message, because an older ticket sits in `needs_info`
(the query filters on `status='needs_info'` before taking the newest row). -/
theorem C1_counterexample :
    (catch_user_messages [] [c1Older, c1Newest] [] 1 (some "hello") none).2 = true
    ∧ (latest_ticket [c1Older, c1Newest] 1).map Ticket.status = some Status.new := by
  decide

/-- C1 amended: an inbound non-operator message is forwarded to operators if
and only if the claimant has at least one ticket currently in `needs_info`
(the newest such ticket receives the log entry); when it is not forwarded,
nothing is logged either (silent drop). -/
theorem C1_forward_iff_exists_needs_info (admins : List Nat) (store : List Ticket)
    (msgs : List MsgEntry) (tg_id : Nat) (text file_id : Option String)
    (hadm : admins.contains tg_id = false) :
    ((catch_user_messages admins store msgs tg_id text file_id).2 = true
      ↔ ∃ t ∈ store, t.user_id = tg_id ∧ t.status = Status.needs_info)
    ∧ ((catch_user_messages admins store msgs tg_id text file_id).2 = false →
        (catch_user_messages admins store msgs tg_id text file_id).1 = msgs) := by
  have hiff := latest_needs_info_isSome store tg_id
  have hnadm : tg_id ∉ admins := by simpa using hadm
  cases hl : latest_needs_info store tg_id with
  | none =>
    rw [hl] at hiff
    have hc1 : (catch_user_messages admins store msgs tg_id text file_id)
        = (msgs, false) := by
      simp [catch_user_messages, hadm, hnadm, hl]
    rw [hc1]
    constructor
    · constructor
      · intro h; simp at h
      · intro hex
        have hs : (none : Option Ticket).isSome = true := hiff.mpr hex
        simp at hs
    · intro _; rfl
  | some t =>
    rw [hl] at hiff
    have hc1 : (catch_user_messages admins store msgs tg_id text file_id)
        = (add_message msgs t.code "user" text file_id, true) := by
      simp [catch_user_messages, hadm, hnadm, hl]
    rw [hc1]
    constructor
    · constructor
      · intro _
        exact hiff.mp rfl
      · intro _; rfl
    · intro h; simp at h

/-- Witness for the amended C1 at a one-ticket store in `needs_info`. -/
theorem C1_forward_witness :
    ([] : List Nat).contains 1 = false
    ∧ ((catch_user_messages [] [c1Older] [] 1 (some "x") none).2 = true
        ↔ ∃ t ∈ [c1Older], t.user_id = 1 ∧ t.status = Status.needs_info) :=
  ⟨rfl, (C1_forward_iff_exists_needs_info [] [c1Older] [] 1 (some "x") none rfl).1⟩

/-- Resolving a code after `update_ticket_status` yields the same row with
the new status (codes are preserved by the update). -/
theorem find_ticket_update (store : List Ticket) (code : String) (st : Status) :
    find_ticket_by_code (update_ticket_status store code st) code
      = (find_ticket_by_code store code).map fun t => { t with status := st } := by
  induction store with
  | nil => rfl
  | cons a l ih =>
    by_cases h : a.code = code
    · have hu : updRow code st a = { a with status := st } := by
        simp [updRow, h]
      simp [update_ticket_status, find_ticket_by_code, List.find?, hu, h] at ih ⊢
    · have hu : updRow code st a = a := by
        simp [updRow, h]
      simp only [update_ticket_status, List.map_cons, find_ticket_by_code,
        List.find?, hu] at ih ⊢
      rw [show (a.code == code) = false by simp [h]]
      exact ih

/-- C2 as stated is false: `approve` on a `rejected` ticket moves its status
to `approved`, so `rejected` is not terminal. -/
theorem C2_counterexample :
    (find_ticket_by_code [tRejected] "TCK-20250101-0001").map Ticket.status
        = some Status.rejected
    ∧ (find_ticket_by_code
          (admin_actions [tRejected] [] none "TCK-20250101-0001"
            AdminAction.approve).store
          "TCK-20250101-0001").map Ticket.status
        = some Status.approved := by
  decide

/-- C2 amended: the moderation handlers guard only on the code resolving —
`approve`, the completed `reject` sub-dialog, and `requestInfo` overwrite the
status unconditionally (to `approved`, `rejected`, `needs_info`
respectively), whatever the current status, so `approved` and `rejected` are
not terminal. -/
theorem C2_moderation_overwrites_status (store : List Ticket)
    (msgs : List MsgEntry) (pending : Option (String × PendKind)) (code : String)
    (t : Ticket) (text : Option String)
    (hf : find_ticket_by_code store code = some t) :
    find_ticket_by_code
        (admin_actions store msgs pending code AdminAction.approve).store code
      = some { t with status := Status.approved }
    ∧ find_ticket_by_code
        (admin_reject_with_reason store msgs (some code) text).store code
      = some { t with status := Status.rejected }
    ∧ find_ticket_by_code
        (admin_actions store msgs pending code AdminAction.needinfo).store code
      = some { t with status := Status.needs_info } := by
  refine ⟨?_, ?_, ?_⟩ <;>
    simp [admin_actions, admin_reject_with_reason, hf, find_ticket_update]

/-- Witness for the amended C2: approving a ticket currently in `new`. -/
theorem C2_moderation_witness :
    find_ticket_by_code [c1Newest] "TCK-20250101-0002" = some c1Newest
    ∧ find_ticket_by_code
        (admin_actions [c1Newest] [] none "TCK-20250101-0002"
          AdminAction.approve).store
        "TCK-20250101-0002" = some { c1Newest with status := Status.approved } :=
  ⟨by decide,
   (C2_moderation_overwrites_status [c1Newest] [] none "TCK-20250101-0002"
      c1Newest none (by decide)).1⟩

/-- A row update by `updRow` never touches the identifier columns. -/
theorem get?_update_identity (s : List Ticket) (code : String) (st : Status)
    (i : Nat) (t : Ticket) (ht : s.get? i = some t) :
    ∃ t', (update_ticket_status s code st).get? i = some t'
      ∧ t'.email = t.email ∧ t'.project_nick = t.project_nick := by
  refine ⟨updRow code st t, ?_, ?_, ?_⟩
  · show (s.map (updRow code st)).get? i = some (updRow code st t)
    rw [List.get?_map, ht]
    rfl
  · simp only [updRow]
    split <;> rfl
  · simp only [updRow]
    split <;> rfl

/-- C7: a ticket persisted by a successful wizard run (identifier kind `nick`
or `email`, identifier value present) populates exactly one of the `email` /
`project_nick` columns, the one selected by the casino's identifier kind, and
no later operation (gated finalization or moderation) modifies either column
of any existing ticket. -/
theorem C7_identifier_exclusive_immutable (today : String) (store : List Ticket)
    (tg_id : Nat) (p : TicketPayload) (v : String)
    (hv : p.id_value = some v)
    (hk : p.id_type = "nick" ∨ p.id_type = "email") :
    (∀ t, (create_ticket today store tg_id p).1.getLast? = some t →
       ((t.email = some v ∧ t.project_nick = none)
         ∨ (t.project_nick = some v ∧ t.email = none))
       ∧ (p.id_type = "email" → t.email = some v ∧ t.project_nick = none)
       ∧ (p.id_type = "nick" → t.project_nick = some v ∧ t.email = none))
    ∧ (∀ (op : Op) (s : List Ticket) (i : Nat) (t : Ticket),
        s.get? i = some t →
        ∃ t', (applyOp today s op).get? i = some t'
          ∧ t'.email = t.email ∧ t'.project_nick = t.project_nick) := by
  constructor
  · intro t ht
    have hc : (create_ticket today store tg_id p).1
        = store ++ [⟨gen_ticket_code store today, tg_id,
            (if p.id_type = "email" then p.id_value else none),
            (if p.id_type = "nick" then p.id_value else none),
            p.casino_code, Status.new, p.attachments, ""⟩] := rfl
    rw [hc, List.getLast?_concat] at ht
    injection ht with ht
    subst ht
    cases hk with
    | inl h => simp [h, hv]
    | inr h => simp [h, hv]
  · intro op s i t ht
    have hi : i < s.length := by
      by_contra hcon
      rw [List.get?_eq_none.mpr (by omega)] at ht
      cases ht
    cases op with
    | finalize uid q =>
      by_cases hq : count_active_tickets s uid ≥ MAX_ACTIVE_TICKETS
      · exact ⟨t, by simpa [applyOp, hq] using ht, rfl, rfl⟩
      · refine ⟨t, ?_, rfl, rfl⟩
        simp only [applyOp, if_neg hq, create_ticket]
        rw [List.get?_append hi]
        exact ht
    | adminApprove code =>
      by_cases hf : (find_ticket_by_code s code).isSome
      · have h := get?_update_identity s code Status.approved i t ht
        simpa [applyOp, hf] using h
      · exact ⟨t, by simpa [applyOp, hf] using ht, rfl, rfl⟩
    | adminRejectDone code =>
      by_cases hf : (find_ticket_by_code s code).isSome
      · have h := get?_update_identity s code Status.rejected i t ht
        simpa [applyOp, hf] using h
      · exact ⟨t, by simpa [applyOp, hf] using ht, rfl, rfl⟩
    | adminNeedInfo code =>
      by_cases hf : (find_ticket_by_code s code).isSome
      · have h := get?_update_identity s code Status.needs_info i t ht
        simpa [applyOp, hf] using h
      · exact ⟨t, by simpa [applyOp, hf] using ht, rfl, rfl⟩

/-- Witness for C7: the first created nickname-kind ticket has its nickname
populated and its email `none`. -/
theorem C7_identifier_witness :
    payNick.id_value = some "Player123"
    ∧ (firstTicket.project_nick = some "Player123" ∧ firstTicket.email = none) :=
  ⟨rfl,
   ((C7_identifier_exclusive_immutable "20250101" [] 1 payNick "Player123" rfl
       (Or.inl rfl)).1 firstTicket (by decide)).2.2 rfl⟩

/-- Counting active tickets across an insertion at the tail. -/
theorem count_active_append (store : List Ticket) (t : Ticket) (tg : Nat) :
    count_active_tickets (store ++ [t]) tg
      = count_active_tickets store tg + (if isActiveFor tg t then 1 else 0) := by
  by_cases h : isActiveFor tg t <;>
    simp [count_active_tickets, List.filter_append, List.filter, h]

/-- An insertion grows any active count by at most one. -/
theorem count_active_append_le (store : List Ticket) (t : Ticket) (tg : Nat) :
    count_active_tickets (store ++ [t]) tg ≤ count_active_tickets store tg + 1 := by
  rw [count_active_append]
  split <;> omega

/-- Counting active tickets across a cons. -/
theorem count_active_cons (x : Ticket) (xs : List Ticket) (tg : Nat) :
    count_active_tickets (x :: xs) tg
      = (if isActiveFor tg x then 1 else 0) + count_active_tickets xs tg := by
  by_cases h : isActiveFor tg x <;>
    simp [count_active_tickets, List.filter_cons, h] <;> omega

/-- A status update to a non-active status never increases an active count. -/
theorem count_active_update_le (store : List Ticket) (code : String) (st : Status)
    (tg : Nat) (hst : ACTIVE_STATUSES.contains st = false) :
    count_active_tickets (update_ticket_status store code st) tg
      ≤ count_active_tickets store tg := by
  induction store with
  | nil => simp [update_ticket_status, count_active_tickets]
  | cons a l ih =>
    have hc : update_ticket_status (a :: l) code st
        = updRow code st a :: update_ticket_status l code st := rfl
    rw [hc, count_active_cons, count_active_cons]
    have hele : (if isActiveFor tg (updRow code st a) then 1 else 0)
        ≤ (if isActiveFor tg a then 1 else 0) := by
      by_cases hu : isActiveFor tg (updRow code st a)
      · have ha : isActiveFor tg a = true := by
          by_cases hcode : a.code == code
          · exfalso
            have h2 : isActiveFor tg { a with status := st } = true := by
              simpa [updRow, hcode] using hu
            have h3 : ACTIVE_STATUSES.contains st = true := by
              simp only [isActiveFor, Bool.and_eq_true] at h2
              exact h2.2
            rw [hst] at h3
            exact absurd h3 (by decide)
          · simpa [updRow, hcode] using hu
        simp [hu, ha]
      · rw [if_neg hu]
        exact Nat.zero_le _
    omega

/-- A status update to `needs_info` of a ticket that is already active leaves
every active count unchanged. -/
theorem count_active_update_needs_info (store : List Ticket) (code : String)
    (tg : Nat)
    (hsafe : ∀ t ∈ store, t.code = code → ACTIVE_STATUSES.contains t.status = true) :
    count_active_tickets (update_ticket_status store code Status.needs_info) tg
      = count_active_tickets store tg := by
  induction store with
  | nil => rfl
  | cons a l ih =>
    have hc : update_ticket_status (a :: l) code Status.needs_info
        = updRow code Status.needs_info a :: update_ticket_status l code Status.needs_info := rfl
    rw [hc, count_active_cons, count_active_cons]
    have hele : isActiveFor tg (updRow code Status.needs_info a) = isActiveFor tg a := by
      by_cases hcode : a.code == code
      · have ha : ACTIVE_STATUSES.contains a.status = true :=
          hsafe a (List.mem_cons_self a l) (by simpa using hcode)
        have h1 : updRow code Status.needs_info a = { a with status := Status.needs_info } := by
          simp [updRow, hcode]
        rw [h1]
        show ((a.user_id == tg) && ACTIVE_STATUSES.contains Status.needs_info)
            = ((a.user_id == tg) && ACTIVE_STATUSES.contains a.status)
        rw [ha]
        rfl
      · simp [updRow, hcode]
    rw [hele, ih fun t htm hcode => hsafe t (List.mem_cons_of_mem a htm) hcode]

/-- C4 as stated is false: a sequence in which every creation passes the
admission check still ends with four active tickets for user 7, because
`requestInfo` re-activates an approved ticket. -/
theorem C4_counterexample :
    count_active_tickets (applyOps "20250101" [] c4Ops) 7 = 4
    ∧ MAX_ACTIVE_TICKETS = 3 := by
  decide

/-- C4 amended: the active-count bound does hold for every gated operation
sequence in which `requestInfo` is only ever applied to tickets that are
still in the active set (it sets `needs_info` unconditionally, so applying it
to an approved or rejected ticket re-activates that ticket and can push a
user past the cap). -/
theorem C4_active_bound_of_safe_needinfo (today : String) (ops : List Op) :
    ∀ s : List Ticket,
      (∀ u, count_active_tickets s u ≤ MAX_ACTIVE_TICKETS) →
      okNeedinfo today s ops = true →
      ∀ tg, count_active_tickets (applyOps today s ops) tg ≤ MAX_ACTIVE_TICKETS := by
  induction ops with
  | nil => intro s hs _ tg; exact hs tg
  | cons op rest ih =>
    intro s hs hok tg
    simp only [okNeedinfo, Bool.and_eq_true] at hok
    obtain ⟨hok1, hok2⟩ := hok
    have hstep : ∀ u, count_active_tickets (applyOp today s op) u ≤ MAX_ACTIVE_TICKETS := by
      intro u
      cases op with
      | finalize uid q =>
        by_cases hq : count_active_tickets s uid ≥ MAX_ACTIVE_TICKETS
        · simpa [applyOp, hq] using hs u
        · have hc : applyOp today s (Op.finalize uid q)
              = s ++ [⟨gen_ticket_code s today, uid,
                  (if q.id_type = "email" then q.id_value else none),
                  (if q.id_type = "nick" then q.id_value else none),
                  q.casino_code, Status.new, q.attachments, ""⟩] := by
            simp [applyOp, hq, create_ticket]
          rw [hc]
          by_cases hu : u = uid
          · subst hu
            have hlt : count_active_tickets s u < MAX_ACTIVE_TICKETS := by omega
            exact le_trans (count_active_append_le s _ u) (by omega)
          · rw [count_active_append]
            have hna : isActiveFor u ⟨gen_ticket_code s today, uid,
                (if q.id_type = "email" then q.id_value else none),
                (if q.id_type = "nick" then q.id_value else none),
                q.casino_code, Status.new, q.attachments, ""⟩ = false := by
              simp [isActiveFor]
              intro h
              exact absurd h.symm hu
            rw [hna]
            simpa using hs u
      | adminApprove code =>
        by_cases hf : (find_ticket_by_code s code).isSome
        · have h := count_active_update_le s code Status.approved u (by decide)
          calc count_active_tickets (applyOp today s (Op.adminApprove code)) u
              = count_active_tickets (update_ticket_status s code Status.approved) u := by
                simp [applyOp, hf]
            _ ≤ count_active_tickets s u := h
            _ ≤ MAX_ACTIVE_TICKETS := hs u
        · simpa [applyOp, hf] using hs u
      | adminRejectDone code =>
        by_cases hf : (find_ticket_by_code s code).isSome
        · have h := count_active_update_le s code Status.rejected u (by decide)
          calc count_active_tickets (applyOp today s (Op.adminRejectDone code)) u
              = count_active_tickets (update_ticket_status s code Status.rejected) u := by
                simp [applyOp, hf]
            _ ≤ count_active_tickets s u := h
            _ ≤ MAX_ACTIVE_TICKETS := hs u
        · simpa [applyOp, hf] using hs u
      | adminNeedInfo code =>
        have hall : (s.filter fun t => t.code == code).all
            (fun t => ACTIVE_STATUSES.contains t.status) = true := hok1
        have hsafe : ∀ t ∈ s, t.code = code →
            ACTIVE_STATUSES.contains t.status = true := by
          intro t htm hcode
          exact List.all_eq_true.mp hall t (List.mem_filter.mpr ⟨htm, by simp [hcode]⟩)
        by_cases hf : (find_ticket_by_code s code).isSome
        · have h := count_active_update_needs_info s code u hsafe
          calc count_active_tickets (applyOp today s (Op.adminNeedInfo code)) u
              = count_active_tickets (update_ticket_status s code Status.needs_info) u := by
                simp [applyOp, hf]
            _ = count_active_tickets s u := h
            _ ≤ MAX_ACTIVE_TICKETS := hs u
        · simpa [applyOp, hf] using hs u
    exact ih (applyOp today s op) hstep hok2 tg

/-- Witness for the amended C4: one gated creation followed by a safe
`requestInfo` keeps user 7 at or below the cap. -/
theorem C4_active_bound_witness :
    okNeedinfo "20250101" []
        [Op.finalize 7 payNick, Op.adminNeedInfo "TCK-20250101-0001"] = true
    ∧ count_active_tickets
        (applyOps "20250101" []
          [Op.finalize 7 payNick, Op.adminNeedInfo "TCK-20250101-0001"]) 7
        ≤ MAX_ACTIVE_TICKETS :=
  ⟨by decide,
   C4_active_bound_of_safe_needinfo "20250101"
     [Op.finalize 7 payNick, Op.adminNeedInfo "TCK-20250101-0001"] []
     (fun _ => Nat.zero_le MAX_ACTIVE_TICKETS) (by decide) 7⟩

/-- Folding the decimal digits of `n` onto an accumulator. -/
theorem natDigitsAux_foldl : ∀ fuel n : Nat, n ≤ fuel → ∀ a : Nat,
    (natDigitsAux fuel n).foldl (fun x d => x * 10 + d) a
      = a * 10 ^ (natDigitsAux fuel n).length + n := by
  intro fuel
  induction fuel with
  | zero =>
    intro n hn a
    have h0 : n = 0 := by omega
    subst h0
    simp [natDigitsAux]
  | succ f ih =>
    intro n hn a
    cases n with
    | zero => simp [natDigitsAux]
    | succ m =>
      have hdiv : (m + 1) / 10 ≤ f := by
        have h1 : (m + 1) / 10 < m + 1 := Nat.div_lt_self (Nat.succ_pos m) (by omega)
        omega
      simp only [natDigitsAux, List.foldl_append, List.length_append,
        List.foldl_cons, List.foldl_nil, List.length_cons, List.length_nil]
      rw [ih ((m + 1) / 10) hdiv a]
      have hmod := Nat.div_add_mod (m + 1) 10
      have key : ∀ X d r : Nat, 10 * d + r = m + 1 →
          (X + d) * 10 + r = X * 10 + (m + 1) := by
        intro X d r h
        omega
      rw [pow_succ, ← Nat.mul_assoc]
      exact key (a * 10 ^ (natDigitsAux f ((m + 1) / 10)).length) _ _ hmod

/-- Every digit produced by `natDigitsAux` is below 10. -/
theorem natDigitsAux_lt_ten : ∀ fuel n : Nat, ∀ d ∈ natDigitsAux fuel n, d < 10 := by
  intro fuel
  induction fuel with
  | zero =>
    intro n d hd
    cases n <;> simp [natDigitsAux] at hd
  | succ f ih =>
    intro n d hd
    cases n with
    | zero => simp [natDigitsAux] at hd
    | succ m =>
      simp only [natDigitsAux] at hd
      rcases List.mem_append.mp hd with h | h
      · exact ih _ d h
      · have hdm : d = (m + 1) % 10 := by simpa using h
        subst hdm
        exact Nat.mod_lt _ (by omega)

/-- Every digit of `pad4digits` is below 10. -/
theorem pad4digits_lt_ten (n : Nat) : ∀ d ∈ pad4digits n, d < 10 := by
  intro d hd
  unfold pad4digits at hd
  rcases List.mem_append.mp hd with h | h
  · have := List.eq_of_mem_replicate h
    omega
  · by_cases h0 : n = 0
    · rw [if_pos h0] at h
      have hdm : d = 0 := by simpa using h
      omega
    · rw [if_neg h0] at h
      exact natDigitsAux_lt_ten n n d h

/-- Leading zero digits do not change the folded value. -/
theorem foldl_replicate_zero (z : Nat) :
    (List.replicate z 0).foldl (fun a d => a * 10 + d) 0 = 0 := by
  induction z with
  | zero => rfl
  | succ w ih => simpa [List.replicate_succ] using ih

/-- The zero-padded digit rendering of `n` evaluates back to `n`. -/
theorem pad4digits_val (n : Nat) : digitsVal (pad4digits n) = n := by
  unfold pad4digits digitsVal
  rw [List.foldl_append, foldl_replicate_zero]
  by_cases h0 : n = 0
  · subst h0
    rfl
  · rw [if_neg h0]
    have hfold := natDigitsAux_foldl n n le_rfl 0
    simpa [natDigitsBE] using hfold

/-- Reading the rendered digit characters recovers the digit fold. -/
theorem readNat_map_aux : ∀ ds : List Nat, (∀ d ∈ ds, d < 10) → ∀ a : Nat,
    (ds.map toDigitChar).foldl (fun x c => x * 10 + (c.toNat - 48)) a
      = ds.foldl (fun x d => x * 10 + d) a := by
  intro ds
  induction ds with
  | nil => intro _ a; rfl
  | cons d t ih =>
    intro hds a
    have hd : d < 10 := hds d (List.mem_cons_self d t)
    have hchar : (toDigitChar d).toNat - 48 = d := by
      have hall : ∀ x < 10, (toDigitChar x).toNat - 48 = x := by decide
      exact hall d hd
    simp only [List.map_cons, List.foldl_cons, hchar]
    exact ih (fun x hx => hds x (List.mem_cons_of_mem d hx)) _

/-- `readNatChars` undoes `pad4`. -/
theorem readNatChars_pad4 (n : Nat) : readNatChars (pad4 n).data = n := by
  have h1 : (pad4 n).data = (pad4digits n).map toDigitChar := rfl
  rw [readNatChars, h1, readNat_map_aux (pad4digits n) (pad4digits_lt_ten n) 0]
  exact pad4digits_val n

/-- The date block of a generated code is `today` (8-character dates). -/
theorem codeDay_mkCode (today : String) (h8 : today.data.length = 8) (m : Nat) :
    codeDay ("TCK-" ++ today ++ "-" ++ pad4 m) = today := by
  unfold codeDay
  have hdata : ("TCK-" ++ today ++ "-" ++ pad4 m).data
      = ['T', 'C', 'K', '-'] ++ (today.data ++ ('-' :: (pad4digits m).map toDigitChar)) := by
    simp [String.data_append, pad4]
  rw [hdata]
  rw [show (4 : Nat) = (['T', 'C', 'K', '-'] : List Char).length from rfl, List.drop_left]
  rw [show (8 : Nat) = today.data.length from h8.symm, List.take_left]

/-- The sequence block of a generated code reads back as `m`. -/
theorem seqNum_mkCode (today : String) (h8 : today.data.length = 8) (m : Nat) :
    seqNum ("TCK-" ++ today ++ "-" ++ pad4 m) = m := by
  unfold seqNum
  have hdata : ("TCK-" ++ today ++ "-" ++ pad4 m).data
      = (['T', 'C', 'K', '-'] ++ today.data ++ ['-']) ++ (pad4digits m).map toDigitChar := by
    simp [String.data_append, pad4]
  have hlen : (['T', 'C', 'K', '-'] ++ today.data ++ ['-']).length = 13 := by
    simp [h8]
  rw [hdata, show (13 : Nat) = (['T', 'C', 'K', '-'] ++ today.data ++ ['-']).length from hlen.symm,
    List.drop_left]
  have h1 : (pad4 m).data = (pad4digits m).map toDigitChar := rfl
  rw [← h1, readNatChars_pad4]

/-- Inserting a ticket created for today bumps today's count by one. -/
theorem today_count_create (today : String) (h8 : today.data.length = 8)
    (store : List Ticket) (tg_id : Nat) (p : TicketPayload) :
    ((create_ticket today store tg_id p).1.filter
        fun t => codeDay t.code == today).length
      = (store.filter fun t => codeDay t.code == today).length + 1 := by
  have hc : (create_ticket today store tg_id p).1
      = store ++ [⟨gen_ticket_code store today, tg_id,
          (if p.id_type = "email" then p.id_value else none),
          (if p.id_type = "nick" then p.id_value else none),
          p.casino_code, Status.new, p.attachments, ""⟩] := rfl
  have hday : codeDay (gen_ticket_code store today) = today := by
    have hg : gen_ticket_code store today
        = "TCK-" ++ today ++ "-"
          ++ pad4 ((store.filter fun t => codeDay t.code == today).length + 1) := rfl
    rw [hg]
    exact codeDay_mkCode today h8 _
  rw [hc, List.filter_append, List.length_append]
  simp [List.filter, hday]

/-- Code list produced by sequential invocation, starting from a store with
`n` tickets dated today. -/
theorem seqCreate_codes (today : String) (h8 : today.data.length = 8)
    (tg_id : Nat) (p : TicketPayload) :
    ∀ (k : Nat) (store : List Ticket) (n : Nat),
      (store.filter fun t => codeDay t.code == today).length = n →
      (seqCreate today tg_id p store k).2
        = (List.range k).map (fun i => "TCK-" ++ today ++ "-" ++ pad4 (n + i + 1)) := by
  intro k
  induction k with
  | zero => intro store n _; rfl
  | succ k ih =>
    intro store n hn
    have hcode : (create_ticket today store tg_id p).2
        = "TCK-" ++ today ++ "-" ++ pad4 (n + 1) := by
      have hg : (create_ticket today store tg_id p).2
          = "TCK-" ++ today ++ "-"
            ++ pad4 ((store.filter fun t => codeDay t.code == today).length + 1) := rfl
      rw [hg, hn]
    have hstore : ((create_ticket today store tg_id p).1.filter
        fun t => codeDay t.code == today).length = n + 1 := by
      rw [today_count_create today h8 store tg_id p, hn]
    have hs : (seqCreate today tg_id p store (k + 1)).2
        = (create_ticket today store tg_id p).2
          :: (seqCreate today tg_id p (create_ticket today store tg_id p).1 k).2 := rfl
    rw [hs, ih (create_ticket today store tg_id p).1 (n + 1) hstore, hcode]
    rw [List.range_succ_eq_map, List.map_cons, List.map_map]
    congr 1
    apply List.map_congr_left
    intro i _
    have harith : n + 1 + i + 1 = n + (i + 1) + 1 := by omega
    show "TCK-" ++ today ++ "-" ++ pad4 (n + 1 + i + 1)
        = "TCK-" ++ today ++ "-" ++ pad4 (n + (i + 1) + 1)
    rw [harith]

/-- C8: the generator returns `TCK-<today>-<NNNN>` with `NNNN` the count of
tickets already created today plus one, 4-digit zero-padded and 1-based; and
under sequential invocation starting from a store with no tickets dated
today (each generated code inserted before the next call) the i-th code is
`TCK-<today>-<pad4 i>`, no code is ever repeated or collides with a
pre-existing code, and the sequence numbers are monotonically
non-decreasing. -/
theorem C8_ticket_codes (today : String) (s0 : List Ticket) (tg_id : Nat)
    (p : TicketPayload) (k : Nat)
    (h8 : today.data.length = 8)
    (h0 : ∀ t ∈ s0, codeDay t.code ≠ today) :
    (∀ store : List Ticket, gen_ticket_code store today
        = "TCK-" ++ today ++ "-"
          ++ pad4 ((store.filter fun t => codeDay t.code == today).length + 1))
    ∧ (seqCreate today tg_id p s0 k).2
        = (List.range k).map (fun i => "TCK-" ++ today ++ "-" ++ pad4 (i + 1))
    ∧ ((seqCreate today tg_id p s0 k).2).Nodup
    ∧ ((seqCreate today tg_id p s0 k).2).Pairwise (fun a b => seqNum a ≤ seqNum b)
    ∧ (∀ c ∈ (seqCreate today tg_id p s0 k).2, ∀ t ∈ s0, c ≠ t.code) := by
  have hn0 : (s0.filter fun t => codeDay t.code == today).length = 0 := by
    rw [List.length_eq_zero]
    rw [List.filter_eq_nil]
    intro t ht
    simpa using h0 t ht
  have hcodes0 := seqCreate_codes today h8 tg_id p k s0 0 hn0
  have hcodes : (seqCreate today tg_id p s0 k).2
      = (List.range k).map (fun i => "TCK-" ++ today ++ "-" ++ pad4 (i + 1)) := by
    rw [hcodes0]
    apply List.map_congr_left
    intro i _
    have harith : 0 + i + 1 = i + 1 := by omega
    show "TCK-" ++ today ++ "-" ++ pad4 (0 + i + 1)
        = "TCK-" ++ today ++ "-" ++ pad4 (i + 1)
    rw [harith]
  have hinj : Function.Injective
      (fun i : Nat => "TCK-" ++ today ++ "-" ++ pad4 (i + 1)) := by
    intro a b hab
    have hs := congrArg seqNum hab
    rw [seqNum_mkCode today h8, seqNum_mkCode today h8] at hs
    omega
  refine ⟨fun store => rfl, hcodes, ?_, ?_, ?_⟩
  · rw [hcodes]
    exact (List.nodup_range k).map hinj
  · rw [hcodes]
    refine List.Pairwise.map _ ?_ (List.pairwise_lt_range k)
    intro a b hab
    rw [seqNum_mkCode today h8, seqNum_mkCode today h8]
    omega
  · intro c hc t ht
    rw [hcodes] at hc
    obtain ⟨i, _, hce⟩ := List.mem_map.mp hc
    intro heq
    apply h0 t ht
    rw [← heq, ← hce]
    exact codeDay_mkCode today h8 (i + 1)

/-- Witness for C8: two sequential creations from an empty store yield the
first two codes of the day. -/
theorem C8_ticket_codes_witness :
    ("20250101" : String).data.length = 8
    ∧ (seqCreate "20250101" 1 payNick [] 2).2
        = [ "TCK-20250101-0001", "TCK-20250101-0002"] := by
  refine ⟨rfl, ?_⟩
  have h := (C8_ticket_codes "20250101" [] 1 payNick 2 rfl
      (fun t ht => absurd ht (List.not_mem_nil t))).2.1
  rw [h]
  decide

end Cashback
